import Mathlib

/-!
Verification development for the `06-objects-tasks.js` module: a rectangle
constructor with JSON serialize/deserialize helpers, and a fluent CSS
selector builder (`CssSelector` class plus the `cssSelectorBuilder` facade).

The JavaScript source is shallowly embedded: the mutable `CssSelector`
object becomes a Lean structure, each method becomes a function returning
the outcome of the call (`Except String Unit`, carrying the thrown message
on failure) together with the post-call state of the receiver, and the
facade mutable `res` array becomes an explicit `Builder` state threaded
through `combine`/`stringify`.
-/

/-- JavaScript truthiness of a string-or-null field: `null` and the empty
string are falsy, every other string is truthy.  Both the duplicate checks
(`if (this.config.element)`) and the rendering guards in `stringify` use
this test in the source. -/
def truthy : Option String → Bool
  | none => false
  | some s => s != ""

/-- The `config` object created by the `CssSelector` constructor:
`{ element: null, id: null, class: [], attr: [], pseudoClass: [],
pseudoElement: null }`.  The JS field `class` is a Lean keyword, so it is
spelled `classes` here; `attr` and `pseudoClass` keep their names. -/
structure SelConfig where
  element : Option String
  id : Option String
  classes : List String
  attr : List String
  pseudoClass : List String
  pseudoElement : Option String
deriving DecidableEq, Repr

/-- The all-`null`/empty `config` the constructor starts from before copying
the entries of its `obj` argument. -/
def emptyConfig : SelConfig :=
  { element := none, id := none, classes := [], attr := [],
    pseudoClass := [], pseudoElement := none }

/-- A `CssSelector` instance: its `config` and the `currentOrder` rank of
the most recently added part. -/
structure CssSelector where
  config : SelConfig
  currentOrder : Nat
deriving DecidableEq, Repr

/-- The message of the duplicate-singular-part error thrown by `element`,
`id` and `pseudoElement` (text exactly as in the source, typo included). -/
def duplicateMsg : String :=
  "Element, id and pseudo-element should not occur more then one time inside the selector"

/-- The message of the out-of-order error thrown by every part method. -/
def orderMsg : String :=
  "Selector parts should be arranged in the following order: element, id, class, attribute, pseudo-class, pseudo-element"

/-- `CssSelector.prototype.element(value)`: duplicate check (truthiness of
`config.element`), then ordering check (`0 < currentOrder`), then store the
value and set `currentOrder = 0`.  The second component is the state of the
receiver after the call; on a throw no statement has mutated it yet. -/
def CssSelector.element (s : CssSelector) (value : String) :
    Except String Unit × CssSelector :=
  if truthy s.config.element then (Except.error duplicateMsg, s)
  else if 0 < s.currentOrder then (Except.error orderMsg, s)
  else (Except.ok (), ⟨{ s.config with element := some value }, 0⟩)

/-- `CssSelector.prototype.id(value)`: duplicate check, ordering check with
rank 1, then store. -/
def CssSelector.id (s : CssSelector) (value : String) :
    Except String Unit × CssSelector :=
  if truthy s.config.id then (Except.error duplicateMsg, s)
  else if 1 < s.currentOrder then (Except.error orderMsg, s)
  else (Except.ok (), ⟨{ s.config with id := some value }, 1⟩)

/-- `CssSelector.prototype.class(value)` (spelled `classes` here): ordering
check with rank 2, then append to the class list. -/
def CssSelector.classes (s : CssSelector) (value : String) :
    Except String Unit × CssSelector :=
  if 2 < s.currentOrder then (Except.error orderMsg, s)
  else (Except.ok (), ⟨{ s.config with classes := s.config.classes ++ [value] }, 2⟩)

/-- `CssSelector.prototype.attr(value)`: ordering check with rank 3, then
append. -/
def CssSelector.attr (s : CssSelector) (value : String) :
    Except String Unit × CssSelector :=
  if 3 < s.currentOrder then (Except.error orderMsg, s)
  else (Except.ok (), ⟨{ s.config with attr := s.config.attr ++ [value] }, 3⟩)

/-- `CssSelector.prototype.pseudoClass(value)`: ordering check with rank 4,
then append. -/
def CssSelector.pseudoClass (s : CssSelector) (value : String) :
    Except String Unit × CssSelector :=
  if 4 < s.currentOrder then (Except.error orderMsg, s)
  else (Except.ok (), ⟨{ s.config with pseudoClass := s.config.pseudoClass ++ [value] }, 4⟩)

/-- `CssSelector.prototype.pseudoElement(value)`: duplicate check, ordering
check with rank 5, then store. -/
def CssSelector.pseudoElement (s : CssSelector) (value : String) :
    Except String Unit × CssSelector :=
  if truthy s.config.pseudoElement then (Except.error duplicateMsg, s)
  else if 5 < s.currentOrder then (Except.error orderMsg, s)
  else (Except.ok (), ⟨{ s.config with pseudoElement := some value }, 5⟩)

/-- `CssSelector.prototype.stringify()`: element bare, `#id`, `.class` for
each class, `[attr]` for each attribute, `:pseudoClass` for each
pseudo-class, `::pseudoElement`; the singular parts are guarded by the same
truthiness test as in the source (so an empty-string part emits nothing).
The source `length !== 0` guards before the `forEach` loops are
behaviourally redundant (an empty loop appends nothing) and are folded into
the `String.join` over the mapped list. -/
def CssSelector.stringify (s : CssSelector) : String :=
  (if truthy s.config.element then s.config.element.getD "" else "")
  ++ (if truthy s.config.id then "#" ++ s.config.id.getD "" else "")
  ++ String.join (s.config.classes.map (fun c => "." ++ c))
  ++ String.join (s.config.attr.map (fun a => "[" ++ a ++ "]"))
  ++ String.join (s.config.pseudoClass.map (fun p => ":" ++ p))
  ++ (if truthy s.config.pseudoElement then "::" ++ s.config.pseudoElement.getD "" else "")

namespace cssSelectorBuilder

/-- `cssSelectorBuilder.element(value)` = `new CssSelector({element: value}, 0)`. -/
def element (value : String) : CssSelector :=
  ⟨{ emptyConfig with element := some value }, 0⟩

/-- `cssSelectorBuilder.id(value)` = `new CssSelector({id: value}, 1)`. -/
def id (value : String) : CssSelector :=
  ⟨{ emptyConfig with id := some value }, 1⟩

/-- `cssSelectorBuilder.class(value)` = `new CssSelector({class: value}, 2)`
(the constructor pushes the value onto the class list). -/
def classes (value : String) : CssSelector :=
  ⟨{ emptyConfig with classes := [value] }, 2⟩

/-- `cssSelectorBuilder.attr(value)` = `new CssSelector({attr: value}, 3)`. -/
def attr (value : String) : CssSelector :=
  ⟨{ emptyConfig with attr := [value] }, 3⟩

/-- `cssSelectorBuilder.pseudoClass(value)` = `new CssSelector({pseudoClass: value}, 4)`. -/
def pseudoClass (value : String) : CssSelector :=
  ⟨{ emptyConfig with pseudoClass := [value] }, 4⟩

/-- `cssSelectorBuilder.pseudoElement(value)` = `new CssSelector({pseudoElement: value}, 5)`. -/
def pseudoElement (value : String) : CssSelector :=
  ⟨{ emptyConfig with pseudoElement := some value }, 5⟩

end cssSelectorBuilder

/-- An operand of `cssSelectorBuilder.combine`: either a built `CssSelector`
or the facade object itself (the value `combine` returns, used as an operand
in nested combinations). -/
inductive Operand where
  | sel : CssSelector → Operand
  | facade : Operand

/-- The loop of `cssSelectorBuilder.stringify`: pop the accumulated strings
off the end of `res` and concatenate them, last pushed first. -/
def flushRes : List String → String
  | [] => ""
  | x :: xs => flushRes xs ++ x

/-- The mutable state of the `cssSelectorBuilder` facade object: its `res`
array (pushed at the end, popped from the end). -/
structure Builder where
  res : List String
deriving DecidableEq, Repr

/-- `cssSelectorBuilder.stringify()`: concatenates the accumulated strings
in reverse push order and leaves `res` empty.  Returns the string and the
facade state after the call. -/
def Builder.stringify (b : Builder) : String × Builder :=
  (flushRes b.res, ⟨[]⟩)

/-- Rendering an operand of `combine`: `selectorN.stringify()`.  On a plain
`CssSelector` this is side-effect free; on the facade it flushes `res`. -/
def renderOperand : Operand → Builder → String × Builder
  | Operand.sel s, b => (s.stringify, b)
  | Operand.facade, b => b.stringify

/-- `cssSelectorBuilder.combine(selector1, combinator, selector2)`: renders
`selector1`, then `selector2` (JS evaluation order), pushes
`selector1.stringify() + " " + combinator + " " + selector2.stringify()`
onto `res`, and returns `this` — here, the facade new state. -/
def Builder.combine (b : Builder) (selector1 : Operand) (combinator : String)
    (selector2 : Operand) : Builder :=
  let p1 := renderOperand selector1 b
  let p2 := renderOperand selector2 p1.2
  ⟨p2.2.res ++ [p1.1 ++ " " ++ combinator ++ " " ++ p2.1]⟩

/-- Decidable equality of call outcomes, for concrete evaluation. -/
instance {α β : Type} [DecidableEq α] [DecidableEq β] : DecidableEq (Except α β) := fun a b =>
  match a, b with
  | Except.ok u, Except.ok w =>
    if h : u = w then isTrue (by rw [h]) else isFalse (by intro hc; cases hc; exact h rfl)
  | Except.error e, Except.error f =>
    if h : e = f then isTrue (by rw [h]) else isFalse (by intro hc; cases hc; exact h rfl)
  | Except.ok _, Except.error _ => isFalse (by intro hc; cases hc)
  | Except.error _, Except.ok _ => isFalse (by intro hc; cases hc)

/-- One chained part-method call on a `CssSelector`, with its argument. -/
inductive SelPart where
  | element (v : String)
  | id (v : String)
  | classes (v : String)
  | attr (v : String)
  | pseudoClass (v : String)
  | pseudoElement (v : String)
deriving DecidableEq, Repr

/-- Perform one part-method call on a selector. -/
def applyPart (s : CssSelector) : SelPart → Except String Unit × CssSelector
  | SelPart.element v => s.element v
  | SelPart.id v => s.id v
  | SelPart.classes v => s.classes v
  | SelPart.attr v => s.attr v
  | SelPart.pseudoClass v => s.pseudoClass v
  | SelPart.pseudoElement v => s.pseudoElement v

/-- Run a chain of part-method calls, stopping at the first thrown error
(as a JS method chain would). -/
def runParts (s : CssSelector) : List SelPart → Except String CssSelector
  | [] => Except.ok s
  | p :: ps =>
    match applyPart s p with
    | (Except.ok _, s2) => runParts s2 ps
    | (Except.error e, _) => Except.error e

/-- The facade creation call that starts a chain with the given part. -/
def startPart : SelPart → CssSelector
  | SelPart.element v => cssSelectorBuilder.element v
  | SelPart.id v => cssSelectorBuilder.id v
  | SelPart.classes v => cssSelectorBuilder.classes v
  | SelPart.attr v => cssSelectorBuilder.attr v
  | SelPart.pseudoClass v => cssSelectorBuilder.pseudoClass v
  | SelPart.pseudoElement v => cssSelectorBuilder.pseudoElement v

/-- Build a selector from a facade creation call followed by chained
part-method calls: `builder.p(v).p1(v1)....pn(vn)`. -/
def build (p : SelPart) (ps : List SelPart) : Except String CssSelector :=
  runParts (startPart p) ps

/-- The effect of one successful part-method call on the `config`. -/
def updConfig (c : SelConfig) : SelPart → SelConfig
  | SelPart.element v => { c with element := some v }
  | SelPart.id v => { c with id := some v }
  | SelPart.classes v => { c with classes := c.classes ++ [v] }
  | SelPart.attr v => { c with attr := c.attr ++ [v] }
  | SelPart.pseudoClass v => { c with pseudoClass := c.pseudoClass ++ [v] }
  | SelPart.pseudoElement v => { c with pseudoElement := some v }

/-- The `config` accumulated by a successful sequence of calls. -/
def foldConfig (c : SelConfig) (l : List SelPart) : SelConfig :=
  l.foldl updConfig c

/-- The value the `element` field holds after a sequence of calls: the last
`element` call wins (an earlier empty-string value can be overwritten). -/
def lastElement : List SelPart → Option String
  | [] => none
  | SelPart.element v :: ps => (lastElement ps).orElse (fun _ => some v)
  | _ :: ps => lastElement ps

/-- The value the `id` field holds after a sequence of calls. -/
def lastId : List SelPart → Option String
  | [] => none
  | SelPart.id v :: ps => (lastId ps).orElse (fun _ => some v)
  | _ :: ps => lastId ps

/-- The value the `pseudoElement` field holds after a sequence of calls. -/
def lastPseudoElement : List SelPart → Option String
  | [] => none
  | SelPart.pseudoElement v :: ps => (lastPseudoElement ps).orElse (fun _ => some v)
  | _ :: ps => lastPseudoElement ps

/-- The class values of a call sequence, in call order. -/
def classValues (l : List SelPart) : List String :=
  l.filterMap (fun p => match p with | SelPart.classes v => some v | _ => none)

/-- The attribute values of a call sequence, in call order. -/
def attrValues (l : List SelPart) : List String :=
  l.filterMap (fun p => match p with | SelPart.attr v => some v | _ => none)

/-- The pseudo-class values of a call sequence, in call order. -/
def pseudoClassValues (l : List SelPart) : List String :=
  l.filterMap (fun p => match p with | SelPart.pseudoClass v => some v | _ => none)

/-- A present optional part rendered bare, an absent one as nothing. -/
def optStr : Option String → String
  | some v => v
  | none => ""

/-- A present optional part rendered behind its punctuation, an absent one
as nothing. -/
def optPre (pre : String) : Option String → String
  | some v => pre ++ v
  | none => ""

/-- The rendering the specification prescribes for a call sequence: the
parts concatenated in rank order — element bare, `#` before the id, `.`
before each class (in call order), each attribute in `[` `]` (in call
order), `:` before each pseudo-class (in call order), `::` before the
pseudo-element. -/
def specRender (l : List SelPart) : String :=
  optStr (lastElement l)
  ++ optPre "#" (lastId l)
  ++ String.join ((classValues l).map (fun v => "." ++ v))
  ++ String.join ((attrValues l).map (fun v => "[" ++ v ++ "]"))
  ++ String.join ((pseudoClassValues l).map (fun v => ":" ++ v))
  ++ optPre "::" (lastPseudoElement l)

/-- The left operand of the documented combine example:
`builder.element("div").id("main")`. -/
def divMain : CssSelector := ((cssSelectorBuilder.element "div").id "main").2

/-- The right operand of the documented combine example:
`builder.element("table").id("data")`. -/
def tableData : CssSelector := ((cssSelectorBuilder.element "table").id "data").2

/-- The string one `combine` call pushes onto `res` for two plain selector
operands. -/
def renderedCombination (t : CssSelector × String × CssSelector) : String :=
  t.1.stringify ++ " " ++ t.2.1 ++ " " ++ t.2.2.stringify

/-- A sequence of `combine` calls on the facade, each with two plain
selector operands. -/
def combineAll (b : Builder) (l : List (CssSelector × String × CssSelector)) : Builder :=
  l.foldl (fun b t => b.combine (Operand.sel t.1) t.2.1 (Operand.sel t.2.2)) b

/-- A JavaScript property value as needed by the rectangle/JSON tasks: a
number, or a method reading the numeric own fields of its receiver (as
`this.width * this.height` does). -/
inductive JsVal where
  | num : Int → JsVal
  | fn : (List (String × Int) → Int) → JsVal

/-- A JavaScript object: its own properties in insertion order, and the
properties of its prototype (one level suffices for this module). -/
structure JsObj where
  own : List (String × JsVal)
  proto : List (String × JsVal)

/-- Look a key up in a property list (first match). -/
def lookupVal (fields : List (String × JsVal)) (k : String) : Option JsVal :=
  (fields.find? (fun q => q.1 == k)).map (fun q => q.2)

/-- The numeric own fields of an object, the view a method reads
(`this.width`, `this.height`). -/
def numProj (fields : List (String × JsVal)) : List (String × Int) :=
  fields.filterMap (fun q => match q.2 with
    | JsVal.num n => some (q.1, n)
    | JsVal.fn _ => none)

/-- Read a numeric field (`this.width` inside `getArea`; absent fields
read as a default, which `getArea` never hits on a rectangle). -/
def numFieldD (fields : List (String × Int)) (k : String) : Int :=
  match (fields.find? (fun q => q.1 == k)).map (fun q => q.2) with
  | some n => n
  | none => 0

/-- `new Rectangle(width, height)`: own fields `width`, `height` and an own
`getArea` method computing `this.width * this.height`; `Rectangle.prototype`
contributes nothing. -/
def Rectangle (width height : Int) : JsObj :=
  { own := [("width", JsVal.num width), ("height", JsVal.num height),
      ("getArea", JsVal.fn (fun self => numFieldD self "width" * numFieldD self "height"))],
    proto := [] }

/-- The textual JSON form of a flat object of numeric fields, represented
by its field list in key order.  `JSON.stringify`/`JSON.parse` are JS
built-ins, not code of this module; they are modelled by this faithful
data representation of the produced text. -/
structure Json where
  fields : List (String × Int)

/-- `getJSON(obj) = JSON.stringify(obj)`: serializes the own enumerable
properties in insertion order; function-valued properties are skipped, as
`JSON.stringify` does. -/
def getJSON (o : JsObj) : Json :=
  ⟨o.own.filterMap (fun q => match q.2 with
    | JsVal.num n => some (q.1, n)
    | JsVal.fn _ => none)⟩

/-- `fromJSON(proto, json)`: parses the JSON text and constructs a new
object whose own properties are the parsed keys (`Object.keys(params)`
order = key order) and whose prototype is `proto`. -/
def fromJSON (proto : List (String × JsVal)) (json : Json) : JsObj :=
  { own := json.fields.map (fun q => (q.1, JsVal.num q.2)), proto := proto }

/-- An object own property, if any. -/
def getOwnProp (o : JsObj) (k : String) : Option JsVal :=
  lookupVal o.own k

/-- Property lookup with prototype delegation: own properties first, then
the prototype. -/
def getProp (o : JsObj) (k : String) : Option JsVal :=
  match getOwnProp o k with
  | some v => some v
  | none => lookupVal o.proto k

/-- Calling a method property on an object: look it up along the prototype
chain and apply it to the receiver own numeric fields. -/
def callMethod (o : JsObj) (k : String) : Option Int :=
  match getProp o k with
  | some (JsVal.fn f) => some (f (numProj o.own))
  | _ => none

/-- The rectangle capability set, used as the prototype when decoding: 
its area-computation method, with the body the `Rectangle` constructor
gives `getArea` (`this.width * this.height`). -/
def rectangleCapabilities : List (String × JsVal) :=
  [("getArea", JsVal.fn (fun self => numFieldD self "width" * numFieldD self "height"))]


/-- Claim C4: on a selector whose `element` is already set (to a truthy
value), a second `element` call fails with the duplicate-singular-part
error, whose message is exactly the quoted text; likewise for `id` and for
`pseudoElement`. -/
theorem duplicate_singular_part_error (s : CssSelector) (v : String) :
    (truthy s.config.element = true →
      (s.element v).1 = Except.error "Element, id and pseudo-element should not occur more then one time inside the selector")
    ∧ (truthy s.config.id = true →
      (s.id v).1 = Except.error "Element, id and pseudo-element should not occur more then one time inside the selector")
    ∧ (truthy s.config.pseudoElement = true →
      (s.pseudoElement v).1 = Except.error "Element, id and pseudo-element should not occur more then one time inside the selector") := by
  refine ⟨?_, ?_, ?_⟩ <;> intro h <;>
    simp [CssSelector.element, CssSelector.id, CssSelector.pseudoElement, h, duplicateMsg]

/-- Concrete instance of claim C4: `builder.element("div").element("p")`
throws the duplicate-singular-part error. -/
theorem duplicate_singular_part_error_witness :
    truthy (cssSelectorBuilder.element "div").config.element = true
    ∧ ((cssSelectorBuilder.element "div").element "p").1 =
        Except.error "Element, id and pseudo-element should not occur more then one time inside the selector" :=
  ⟨by decide, (duplicate_singular_part_error (cssSelectorBuilder.element "div") "p").1 (by decide)⟩

/-- Claim C5: for every selector, a part-method call whose rank is
strictly below `currentOrder` fails with the out-of-order error (exact
message), and a call of equal or greater rank passes the ordering check.
The `class`, `attr` and `pseudoClass` conjuncts are unconditional; each
singular-method conjunct assumes only that its own duplicate check — which
the source runs first, see claim C6 — does not fire. -/
theorem out_of_order_part_error (s : CssSelector) (v : String) :
    (truthy s.config.element = false →
      (s.element v).1 = if 0 < s.currentOrder then
        Except.error "Selector parts should be arranged in the following order: element, id, class, attribute, pseudo-class, pseudo-element"
      else Except.ok ())
    ∧ (truthy s.config.id = false →
      (s.id v).1 = if 1 < s.currentOrder then
        Except.error "Selector parts should be arranged in the following order: element, id, class, attribute, pseudo-class, pseudo-element"
      else Except.ok ())
    ∧ ((s.classes v).1 = if 2 < s.currentOrder then
        Except.error "Selector parts should be arranged in the following order: element, id, class, attribute, pseudo-class, pseudo-element"
      else Except.ok ())
    ∧ ((s.attr v).1 = if 3 < s.currentOrder then
        Except.error "Selector parts should be arranged in the following order: element, id, class, attribute, pseudo-class, pseudo-element"
      else Except.ok ())
    ∧ ((s.pseudoClass v).1 = if 4 < s.currentOrder then
        Except.error "Selector parts should be arranged in the following order: element, id, class, attribute, pseudo-class, pseudo-element"
      else Except.ok ())
    ∧ (truthy s.config.pseudoElement = false →
      (s.pseudoElement v).1 = if 5 < s.currentOrder then
        Except.error "Selector parts should be arranged in the following order: element, id, class, attribute, pseudo-class, pseudo-element"
      else Except.ok ()) := by
  refine ⟨?_, ?_, ?_, ?_, ?_, ?_⟩
  · intro h
    simp only [CssSelector.element, h, Bool.false_eq_true, if_false, orderMsg]
    split <;> rfl
  · intro h
    simp only [CssSelector.id, h, Bool.false_eq_true, if_false, orderMsg]
    split <;> rfl
  · simp only [CssSelector.classes, orderMsg]
    split <;> rfl
  · simp only [CssSelector.attr, orderMsg]
    split <;> rfl
  · simp only [CssSelector.pseudoClass, orderMsg]
    split <;> rfl
  · intro h
    simp only [CssSelector.pseudoElement, h, Bool.false_eq_true, if_false, orderMsg]
    split <;> rfl

/-- Concrete instance of claim C5, on `builder.element("a").class("c")`
(element set, rank 2): the lower-rank `id` call fails with the out-of-order
error even though the element slot is occupied, while the equal-rank
`class` call and the higher-rank `pseudoElement` call pass. -/
theorem out_of_order_part_error_witness :
    truthy ((((cssSelectorBuilder.element "a").classes "c").2).config.id) = false
    ∧ (((((cssSelectorBuilder.element "a").classes "c").2).id "x").1 =
        if 1 < (((cssSelectorBuilder.element "a").classes "c").2).currentOrder then
          Except.error "Selector parts should be arranged in the following order: element, id, class, attribute, pseudo-class, pseudo-element"
        else Except.ok ())
    ∧ (((((cssSelectorBuilder.element "a").classes "c").2).classes "d").1 =
        if 2 < (((cssSelectorBuilder.element "a").classes "c").2).currentOrder then
          Except.error "Selector parts should be arranged in the following order: element, id, class, attribute, pseudo-class, pseudo-element"
        else Except.ok ())
    ∧ (((((cssSelectorBuilder.element "a").classes "c").2).pseudoElement "q").1 =
        if 5 < (((cssSelectorBuilder.element "a").classes "c").2).currentOrder then
          Except.error "Selector parts should be arranged in the following order: element, id, class, attribute, pseudo-class, pseudo-element"
        else Except.ok ()) :=
  ⟨by decide,
    (out_of_order_part_error (((cssSelectorBuilder.element "a").classes "c").2) "x").2.1
      (by decide),
    (out_of_order_part_error (((cssSelectorBuilder.element "a").classes "c").2) "d").2.2.1,
    (out_of_order_part_error (((cssSelectorBuilder.element "a").classes "c").2) "q").2.2.2.2.2
      (by decide)⟩

/-- Claim C6: the uniqueness check runs before the ordering check — a call
that is both a duplicate singular part and out of rank order fails with the
duplicate-singular-part error, not the out-of-order error. -/
theorem duplicate_check_precedes_order_check (s : CssSelector) (v : String) :
    (truthy s.config.element = true → 0 < s.currentOrder →
      (s.element v).1 = Except.error duplicateMsg ∧ (s.element v).1 ≠ Except.error orderMsg)
    ∧ (truthy s.config.id = true → 1 < s.currentOrder →
      (s.id v).1 = Except.error duplicateMsg ∧ (s.id v).1 ≠ Except.error orderMsg)
    ∧ (truthy s.config.pseudoElement = true → 5 < s.currentOrder →
      (s.pseudoElement v).1 = Except.error duplicateMsg ∧ (s.pseudoElement v).1 ≠ Except.error orderMsg) := by
  refine ⟨?_, ?_, ?_⟩ <;> intro h _ <;>
    simp [CssSelector.element, CssSelector.id, CssSelector.pseudoElement, h,
      duplicateMsg, orderMsg]

/-- Concrete instance of claim C6: on `builder.element("a").id("b")` the
call `element("c")` is both a duplicate and out of order and throws the
duplicate-singular-part error. -/
theorem duplicate_check_precedes_order_check_witness :
    truthy (((cssSelectorBuilder.element "a").id "b").2).config.element = true
    ∧ 0 < (((cssSelectorBuilder.element "a").id "b").2).currentOrder
    ∧ (((((cssSelectorBuilder.element "a").id "b").2).element "c").1 = Except.error duplicateMsg
      ∧ ((((cssSelectorBuilder.element "a").id "b").2).element "c").1 ≠ Except.error orderMsg) :=
  ⟨by decide, by decide,
    (duplicate_check_precedes_order_check (((cssSelectorBuilder.element "a").id "b").2) "c").1
      (by decide) (by decide)⟩

/-- Claim C7: a failing part-method call is atomic — whenever the call
does not succeed, the receiver afterwards (second component) is exactly the
selector before the call, for each of the six part methods. -/
theorem failed_call_leaves_selector_unchanged (s : CssSelector) (v : String) :
    ((s.element v).1 ≠ Except.ok () → (s.element v).2 = s)
    ∧ ((s.id v).1 ≠ Except.ok () → (s.id v).2 = s)
    ∧ ((s.classes v).1 ≠ Except.ok () → (s.classes v).2 = s)
    ∧ ((s.attr v).1 ≠ Except.ok () → (s.attr v).2 = s)
    ∧ ((s.pseudoClass v).1 ≠ Except.ok () → (s.pseudoClass v).2 = s)
    ∧ ((s.pseudoElement v).1 ≠ Except.ok () → (s.pseudoElement v).2 = s) := by
  refine ⟨?_, ?_, ?_, ?_, ?_, ?_⟩ <;> intro h <;>
    simp only [CssSelector.element, CssSelector.id, CssSelector.classes,
      CssSelector.attr, CssSelector.pseudoClass, CssSelector.pseudoElement] at h ⊢ <;>
    (repeat' split at h) <;> (repeat' split) <;> simp_all

/-- Concrete instance of claim C7: the failing `element("x")` call on
`builder.class("a")` leaves the selector exactly as it was. -/
theorem failed_call_leaves_selector_unchanged_witness :
    ((cssSelectorBuilder.classes "a").element "x").1 ≠ Except.ok ()
    ∧ ((cssSelectorBuilder.classes "a").element "x").2 = cssSelectorBuilder.classes "a" :=
  ⟨by decide,
    (failed_call_leaves_selector_unchanged (cssSelectorBuilder.classes "a") "x").1 (by decide)⟩

/-- Claim C9: when a singular part was set to the empty string, a later
call to the same method is not a duplicate error (the check tests
truthiness, not presence) and, when the ordering check also passes,
overwrites the stored value; and an empty-string singular part contributes
nothing to the rendered string (the render equals the render with the field
absent). -/
theorem empty_string_singular_part (s : CssSelector) (v : String) :
    (s.config.element = some "" →
      (s.element v).1 ≠ Except.error duplicateMsg
      ∧ (s.currentOrder = 0 → (s.element v).2.config.element = some v)
      ∧ s.stringify = CssSelector.stringify ⟨{ s.config with element := none }, s.currentOrder⟩)
    ∧ (s.config.id = some "" →
      (s.id v).1 ≠ Except.error duplicateMsg
      ∧ (s.currentOrder ≤ 1 → (s.id v).2.config.id = some v)
      ∧ s.stringify = CssSelector.stringify ⟨{ s.config with id := none }, s.currentOrder⟩)
    ∧ (s.config.pseudoElement = some "" →
      (s.pseudoElement v).1 ≠ Except.error duplicateMsg
      ∧ (s.currentOrder ≤ 5 → (s.pseudoElement v).2.config.pseudoElement = some v)
      ∧ s.stringify = CssSelector.stringify ⟨{ s.config with pseudoElement := none }, s.currentOrder⟩) := by
  refine ⟨?_, ?_, ?_⟩ <;> intro h <;>
    refine ⟨?_, ?_, ?_⟩
  · have hb : truthy s.config.element = false := by rw [h]; decide
    simp only [CssSelector.element, hb, Bool.false_eq_true, if_false]
    split <;> intro hc <;> simp_all [duplicateMsg, orderMsg]
  · intro h0
    simp [CssSelector.element, truthy, h, h0]
  · simp [CssSelector.stringify, truthy, h]
  · have hb : truthy s.config.id = false := by rw [h]; decide
    simp only [CssSelector.id, hb, Bool.false_eq_true, if_false]
    split <;> intro hc <;> simp_all [duplicateMsg, orderMsg]
  · intro h0
    simp [CssSelector.id, truthy, h, Nat.not_lt.mpr h0]
  · simp [CssSelector.stringify, truthy, h]
  · have hb : truthy s.config.pseudoElement = false := by rw [h]; decide
    simp only [CssSelector.pseudoElement, hb, Bool.false_eq_true, if_false]
    split <;> intro hc <;> simp_all [duplicateMsg, orderMsg]
  · intro h0
    simp [CssSelector.pseudoElement, truthy, h, Nat.not_lt.mpr h0]
  · simp [CssSelector.stringify, truthy, h]

/-- Concrete instance of claim C9: after `builder.element("")`, the call
`element("div")` overwrites the value, and the empty-string element renders
as nothing. -/
theorem empty_string_singular_part_witness :
    (cssSelectorBuilder.element "").config.element = some ""
    ∧ ((cssSelectorBuilder.element "").element "div").2.config.element = some "div"
    ∧ (cssSelectorBuilder.element "").stringify =
        CssSelector.stringify ⟨{ (cssSelectorBuilder.element "").config with element := none },
          (cssSelectorBuilder.element "").currentOrder⟩ :=
  ⟨rfl,
    ((empty_string_singular_part (cssSelectorBuilder.element "") "div").1 rfl).2.1 rfl,
    ((empty_string_singular_part (cssSelectorBuilder.element "") "div").1 rfl).2.2⟩

/-- A successful part-method call updates the `config` exactly as
`updConfig` records. -/
theorem applyPart_ok_config {s s2 : CssSelector} {u : Unit} {p : SelPart}
    (h : applyPart s p = (Except.ok u, s2)) : s2.config = updConfig s.config p := by
  cases p <;>
    simp only [applyPart, CssSelector.element, CssSelector.id, CssSelector.classes,
      CssSelector.attr, CssSelector.pseudoClass, CssSelector.pseudoElement] at h <;>
    (repeat' split at h) <;>
    first
      | (rw [Prod.mk.injEq] at h
         obtain ⟨h1, h2⟩ := h
         subst h2
         rfl)
      | simp at h

/-- A successful chain of part-method calls accumulates the `config` by
folding `updConfig` over the calls. -/
theorem runParts_ok_config : ∀ (l : List SelPart) (s s' : CssSelector),
    runParts s l = Except.ok s' → s'.config = foldConfig s.config l := by
  intro l
  induction l with
  | nil =>
    intro s s' h
    simp only [runParts, Except.ok.injEq] at h
    subst h; rfl
  | cons p ps ih =>
    intro s s' h
    simp only [runParts] at h
    rcases hp : applyPart s p with ⟨e, s2⟩
    rw [hp] at h
    cases e with
    | ok u =>
      have hc := applyPart_ok_config hp
      have h2 := ih s2 s' h
      rw [h2, hc]
      rfl
    | error e => simp at h

/-- A chain started by a facade creation call behaves exactly like applying
the same call to a fresh empty selector. -/
theorem runParts_empty_cons (p : SelPart) (ps : List SelPart) :
    runParts ⟨emptyConfig, 0⟩ (p :: ps) = build p ps := by
  cases p <;> rfl

/-- Unfolding one call in the accumulated `config`. -/
theorem foldConfig_cons (c : SelConfig) (p : SelPart) (ps : List SelPart) :
    foldConfig c (p :: ps) = foldConfig (updConfig c p) ps := rfl

/-- The `element` field accumulated by a call sequence is its last
`element` argument. -/
theorem foldConfig_element : ∀ (l : List SelPart) (c : SelConfig),
    (foldConfig c l).element =
      (match lastElement l with | some v => some v | none => c.element) := by
  intro l
  induction l with
  | nil => intro c; rfl
  | cons p ps ih =>
    intro c
    rw [foldConfig_cons, ih]
    cases p with
    | element v =>
      cases hl : lastElement ps <;>
        simp [lastElement, updConfig, hl, Option.orElse]
    | id v => simp [lastElement, updConfig]
    | classes v => simp [lastElement, updConfig]
    | attr v => simp [lastElement, updConfig]
    | pseudoClass v => simp [lastElement, updConfig]
    | pseudoElement v => simp [lastElement, updConfig]

/-- The `id` field accumulated by a call sequence is its last `id`
argument. -/
theorem foldConfig_id : ∀ (l : List SelPart) (c : SelConfig),
    (foldConfig c l).id =
      (match lastId l with | some v => some v | none => c.id) := by
  intro l
  induction l with
  | nil => intro c; rfl
  | cons p ps ih =>
    intro c
    rw [foldConfig_cons, ih]
    cases p with
    | id v =>
      cases hl : lastId ps <;>
        simp [lastId, updConfig, hl, Option.orElse]
    | element v => simp [lastId, updConfig]
    | classes v => simp [lastId, updConfig]
    | attr v => simp [lastId, updConfig]
    | pseudoClass v => simp [lastId, updConfig]
    | pseudoElement v => simp [lastId, updConfig]

/-- The `pseudoElement` field accumulated by a call sequence is its last
`pseudoElement` argument. -/
theorem foldConfig_pseudoElement : ∀ (l : List SelPart) (c : SelConfig),
    (foldConfig c l).pseudoElement =
      (match lastPseudoElement l with | some v => some v | none => c.pseudoElement) := by
  intro l
  induction l with
  | nil => intro c; rfl
  | cons p ps ih =>
    intro c
    rw [foldConfig_cons, ih]
    cases p with
    | pseudoElement v =>
      cases hl : lastPseudoElement ps <;>
        simp [lastPseudoElement, updConfig, hl, Option.orElse]
    | element v => simp [lastPseudoElement, updConfig]
    | id v => simp [lastPseudoElement, updConfig]
    | classes v => simp [lastPseudoElement, updConfig]
    | attr v => simp [lastPseudoElement, updConfig]
    | pseudoClass v => simp [lastPseudoElement, updConfig]

/-- The class list accumulated by a call sequence appends the class
arguments in call order. -/
theorem foldConfig_classes : ∀ (l : List SelPart) (c : SelConfig),
    (foldConfig c l).classes = c.classes ++ classValues l := by
  intro l
  induction l with
  | nil => intro c; simp [foldConfig, classValues]
  | cons p ps ih =>
    intro c
    rw [foldConfig_cons, ih]
    cases p <;> simp [classValues, updConfig, List.filterMap_cons, List.append_assoc]

/-- The attribute list accumulated by a call sequence appends the attribute
arguments in call order. -/
theorem foldConfig_attr : ∀ (l : List SelPart) (c : SelConfig),
    (foldConfig c l).attr = c.attr ++ attrValues l := by
  intro l
  induction l with
  | nil => intro c; simp [foldConfig, attrValues]
  | cons p ps ih =>
    intro c
    rw [foldConfig_cons, ih]
    cases p <;> simp [attrValues, updConfig, List.filterMap_cons, List.append_assoc]

/-- The pseudo-class list accumulated by a call sequence appends the
pseudo-class arguments in call order. -/
theorem foldConfig_pseudoClass : ∀ (l : List SelPart) (c : SelConfig),
    (foldConfig c l).pseudoClass = c.pseudoClass ++ pseudoClassValues l := by
  intro l
  induction l with
  | nil => intro c; simp [foldConfig, pseudoClassValues]
  | cons p ps ih =>
    intro c
    rw [foldConfig_cons, ih]
    cases p <;> simp [pseudoClassValues, updConfig, List.filterMap_cons, List.append_assoc]

/-- Rendering an optional singular part whose set value is nonempty: the
truthiness guard agrees with presence. -/
theorem render_bare (o : Option String) (hne : ∀ v, o = some v → v ≠ "") :
    (if truthy o then o.getD "" else "") = optStr o := by
  cases o with
  | none => rfl
  | some v =>
    have hv := hne v rfl
    simp [truthy, bne_iff_ne, hv, optStr]

/-- Rendering a prefixed optional singular part whose set value is
nonempty. -/
theorem render_prefixed (pre : String) (o : Option String)
    (hne : ∀ v, o = some v → v ≠ "") :
    (if truthy o then pre ++ o.getD "" else "") = optPre pre o := by
  cases o with
  | none => rfl
  | some v =>
    have hv := hne v rfl
    simp [truthy, bne_iff_ne, hv, optPre]

/-- Identity match on an option, to align the accumulated fields with the
specified rendering. -/
theorem match_some_id (o : Option String) :
    (match o with | some v => some v | none => (none : Option String)) = o := by
  cases o <;> rfl

/-- Claim C3: for every selector built by a valid (successful) sequence of
part-method calls whose singular values are nonempty, `stringify` returns
the parts concatenated in fixed rank order with the correct punctuation —
element bare, `#` before the id, `.` before each class, each attribute in
`[` and `]`, `:` before each pseudo-class, `::` before the pseudo-element —
and the class, attribute and pseudo-class values appear in call order.
(The nonemptiness hypotheses carve out the empty-string behaviour stated
separately as claim C9.) -/
theorem stringify_rank_order (p : SelPart) (ps : List SelPart) (s' : CssSelector)
    (hok : build p ps = Except.ok s')
    (hE : ∀ v, lastElement (p :: ps) = some v → v ≠ "")
    (hI : ∀ v, lastId (p :: ps) = some v → v ≠ "")
    (hP : ∀ v, lastPseudoElement (p :: ps) = some v → v ≠ "") :
    s'.stringify = specRender (p :: ps) := by
  have hrun : runParts ⟨emptyConfig, 0⟩ (p :: ps) = Except.ok s' := by
    rw [runParts_empty_cons]; exact hok
  have hc : s'.config = foldConfig emptyConfig (p :: ps) :=
    runParts_ok_config _ _ _ hrun
  unfold CssSelector.stringify specRender
  rw [hc, foldConfig_element, foldConfig_id, foldConfig_pseudoElement,
    foldConfig_classes, foldConfig_attr, foldConfig_pseudoClass]
  simp only [emptyConfig, List.nil_append]
  rw [match_some_id, match_some_id, match_some_id,
    render_bare _ hE, render_prefixed "#" _ hI, render_prefixed "::" _ hP]

/-- Concrete instance of claim C3: the chain
`builder.element("a").id("b").class("c").class("d").attr("x").pseudoClass("p").pseudoElement("q")`
succeeds and renders to `"a#b.c.d[x]:p::q"`. -/
theorem stringify_rank_order_witness :
    build (SelPart.element "a") [SelPart.id "b", SelPart.classes "c", SelPart.classes "d",
        SelPart.attr "x", SelPart.pseudoClass "p", SelPart.pseudoElement "q"]
      = Except.ok (CssSelector.mk
          (SelConfig.mk (some "a") (some "b") ["c", "d"] ["x"] ["p"] (some "q")) 5)
    ∧ (CssSelector.mk
          (SelConfig.mk (some "a") (some "b") ["c", "d"] ["x"] ["p"] (some "q")) 5).stringify
      = "a#b.c.d[x]:p::q" := by
  constructor
  · decide
  · rw [stringify_rank_order (SelPart.element "a")
      [SelPart.id "b", SelPart.classes "c", SelPart.classes "d",
        SelPart.attr "x", SelPart.pseudoClass "p", SelPart.pseudoElement "q"]
      (CssSelector.mk (SelConfig.mk (some "a") (some "b") ["c", "d"] ["x"] ["p"] (some "q")) 5)
      (by decide)
      (by intro v hv; injection hv with h2; subst h2; decide)
      (by intro v hv; injection hv with h2; subst h2; decide)
      (by intro v hv; injection hv with h2; subst h2; decide)]
    decide

/-- The pop-and-concatenate loop of the facade `stringify` concatenates
the accumulated strings in reverse order. -/
theorem flushRes_eq_join_reverse (l : List String) :
    flushRes l = String.join l.reverse := by
  induction l with
  | nil => rfl
  | cons x xs ih =>
    show flushRes xs ++ x = String.join ((x :: xs).reverse)
    rw [ih, List.reverse_cons]
    apply String.ext
    simp [String.data_join, String.data_append]

/-- A sequence of `combine` calls appends the rendered combinations to
`res` in call order. -/
theorem combineAll_res : ∀ (l : List (CssSelector × String × CssSelector)) (b : Builder),
    (combineAll b l).res = b.res ++ l.map renderedCombination := by
  intro l
  induction l with
  | nil => intro b; simp [combineAll]
  | cons t ts ih =>
    intro b
    show (combineAll (b.combine (Operand.sel t.1) t.2.1 (Operand.sel t.2.2)) ts).res = _
    rw [ih]
    simp [Builder.combine, renderOperand, renderedCombination, List.append_assoc]

/-- Claim C1 (amended): when the facade `res` list is empty at the call —
on a fresh facade, or immediately after a `stringify` flush — `combine`
produces a result whose rendered string is
`render(left) + " " + c + " " + render(right)`. -/
theorem combine_render_composite (b : Builder) (left right : CssSelector) (c : String)
    (h : b.res = []) :
    ((b.combine (Operand.sel left) c (Operand.sel right)).stringify).1
      = left.stringify ++ " " ++ c ++ " " ++ right.stringify := by
  rcases b with ⟨res⟩
  replace h : res = [] := h
  subst h
  simp only [Builder.combine, renderOperand, Builder.stringify, flushRes,
    List.nil_append, String.empty_append]

/-- Claim C1 is false as universally stated: the rendered result of
`combine(div#main, "+", table#data)` depends on the facade state — after
one prior unflushed `combine` it is not the composite of its two operands. -/
theorem combine_render_composite_counterexample :
    (((Builder.mk []).combine (Operand.sel (cssSelectorBuilder.element "p")) ">"
          (Operand.sel (cssSelectorBuilder.element "span"))).combine
        (Operand.sel divMain) "+" (Operand.sel tableData)).stringify.1
      ≠ divMain.stringify ++ " " ++ "+" ++ " " ++ tableData.stringify := by decide

/-- Concrete instance of amended claim C1: on a fresh facade,
`combine(builder.element("div").id("main"), "+",
builder.element("table").id("data"))` renders to `"div#main + table#data"`. -/
theorem combine_render_composite_witness :
    (Builder.mk []).res = []
    ∧ (((Builder.mk []).combine (Operand.sel divMain) "+"
          (Operand.sel tableData)).stringify).1
        = "div#main + table#data" := by
  constructor
  · rfl
  · rw [combine_render_composite (Builder.mk []) divMain tableData "+" rfl]
    decide

/-- Claim C2 fails on the code: from a fresh facade the nested combination
`combine(combine(a, "+", m), "~", r)` renders to `"a + m ~ r"` (the claimed
shape), but with one prior unrelated `combine(x, ">", y)` on the same
facade the identical nested combination renders to `"a + mx > y ~ r"` —
the leftover accumulator entry leaks into the output, so the two runs
differ. -/
theorem nested_combine_depends_on_prior_combines :
    ((((Builder.mk []).combine (Operand.sel (cssSelectorBuilder.element "a")) "+"
          (Operand.sel (cssSelectorBuilder.element "m"))).combine
        Operand.facade "~" (Operand.sel (cssSelectorBuilder.element "r"))).stringify).1
      = "a + m ~ r"
    ∧ (((((Builder.mk []).combine (Operand.sel (cssSelectorBuilder.element "x")) ">"
            (Operand.sel (cssSelectorBuilder.element "y"))).combine
          (Operand.sel (cssSelectorBuilder.element "a")) "+"
          (Operand.sel (cssSelectorBuilder.element "m"))).combine
        Operand.facade "~" (Operand.sel (cssSelectorBuilder.element "r"))).stringify).1
      = "a + mx > y ~ r"
    ∧ "a + m ~ r" ≠ "a + mx > y ~ r" := by
  refine ⟨by decide, by decide, by decide⟩

/-- Claim C10: `combine` returns the facade itself (modelled as the updated
facade state) after appending the rendered combination string to the
facade-wide `res` list; the facade `stringify` concatenates the
accumulated strings in reverse order of the `combine` calls and empties the
list, so an immediately repeated second `stringify` returns the empty string. -/
theorem facade_res_accumulator (b : Builder) (l : List (CssSelector × String × CssSelector)) :
    (combineAll b l).res = b.res ++ l.map renderedCombination
    ∧ (b.stringify).1 = String.join b.res.reverse
    ∧ (b.stringify).2.res = []
    ∧ (((b.stringify).2).stringify).1 = "" := by
  exact ⟨combineAll_res l b, flushRes_eq_join_reverse b.res, rfl, rfl⟩

/-- Claim C8: decoding `getJSON(r)` via `fromJSON` with the rectangle
capability set as prototype yields own `width`/`height` fields equal to
those of `r`; the area-computation method is not an own field of the result but is
inherited from the given prototype and returns `width * height`. -/
theorem rectangle_json_roundtrip (w h : Int) :
    getOwnProp (fromJSON rectangleCapabilities (getJSON (Rectangle w h))) "width"
        = some (JsVal.num w)
    ∧ getOwnProp (fromJSON rectangleCapabilities (getJSON (Rectangle w h))) "height"
        = some (JsVal.num h)
    ∧ getOwnProp (fromJSON rectangleCapabilities (getJSON (Rectangle w h))) "getArea" = none
    ∧ callMethod (fromJSON rectangleCapabilities (getJSON (Rectangle w h))) "getArea"
        = some (w * h) := by
  exact ⟨rfl, rfl, rfl, rfl⟩
